import Mathlib

/-!
# Shallow embedding of the hireease-backend credential/session core

Lean model of the TypeScript source under `src/`:

* `src/models/Vehicle.ts` (User schema variants): user records, the
  `toJSON` transforms, `generateResetCode`, `generateEmailVerificationCode`,
  `generateResetToken`, the bcrypt compare method.
* `src/controllers/passwordController.ts`: `forgotPassword`,
  `verifyResetCode`, `resetPassword`, `changePassword` (both the 6-digit
  code variant and the link-token variant of `forgotPassword`).
* `src/controllers/authController.ts`: `login`, `removeEmergencyContact`.
* `src/middleware/auth.ts`: `authenticate`.
* `src/middleware/errorHandler.ts`: `errorHandler`.

Modelling conventions:

* SHA-256 (`crypto.createHash('sha256')...digest('hex')`) is modelled as the
  injective wrapper `sha256 : String → Digest` (collision-free idealization
  of a cryptographic hash; `Digest` is a distinct type so a digest can never
  be confused with a plaintext).
* bcrypt hashing (pre-save hook) is modelled as the wrapper
  `bcryptHash : String → Secret`; `compareSecret` models
  `bcrypt.compare(candidate, stored)` by its matching semantics.
* `Date.now()` timestamps are `Nat` milliseconds; `Math.random()` is an
  explicit rational parameter `r` with `0 ≤ r < 1`; `crypto.randomBytes`
  output is an explicit string parameter.
* The Mongo collection is a `List` of user records; `findOne` is
  `List.find?`; a `save` after mutating the found document is `updateFirst`.
* An HTTP JSON reply `{success, message?/error?}` with its status code is
  the `ApiResponse` structure, so "same response" is plain equality.
-/

/-- Output of the one-way hash (hex digest string), kept as a separate type. -/
structure Digest where
  hexOf : String
deriving DecidableEq, Repr

/-- Model of `crypto.createHash('sha256').update(s).digest('hex')`. -/
def sha256 (s : String) : Digest := ⟨s⟩

/-- A stored (bcrypt-hashed) password. -/
structure Secret where
  val : String
deriving DecidableEq, Repr

/-- Model of the pre-save hook hashing a modified plaintext password. -/
def bcryptHash (s : String) : Secret := ⟨s⟩

/-- Model of `bcrypt.compare(candidate, storedHash)`. -/
def compareSecret (candidate : String) (stored : Secret) : Bool :=
  candidate == stored.val

/-- An HTTP JSON response as produced by the controllers:
status code plus the `{success, message?, error?}` body. -/
structure ApiResponse where
  status : Nat
  success : Bool
  message : Option String
  error : Option String
deriving DecidableEq, Repr

/-- User document of the minimal auth variant of the schema
(`src/models/Vehicle.ts`, second section: email/password/verification/reset
fields). `id` is the Mongo `_id`. -/
structure User where
  id : String
  email : String
  password : Secret
  isEmailVerified : Bool
  emailVerificationCode : Option Digest
  emailVerificationExpires : Option Nat
  resetPasswordCode : Option Digest
  resetPasswordExpires : Option Nat
deriving DecidableEq, Repr

/-- User document of the link-token variant of the schema
(`src/models/Vehicle.ts`, last section: `resetPasswordToken` field). -/
structure TokenUser where
  id : String
  email : String
  password : Secret
  resetPasswordToken : Option Digest
  resetPasswordExpires : Option Nat
deriving DecidableEq, Repr

/-- Replace the first element satisfying `p` by `f` of it
(models mutating the document returned by `findOne` and saving it). -/
def updateFirst {α : Type} (p : α → Bool) (f : α → α) : List α → List α
  | [] => []
  | u :: rest => if p u then f u :: rest else u :: updateFirst p f rest

/-- Mongo `{field: {$gt: Date.now()}}`: matches only when the field is
present and strictly greater than `now`. -/
def expiresAfter (now : Nat) : Option Nat → Bool
  | some e => decide (now < e)
  | none => false

/-- The `/^\d{6}$/` format test used by `verifyResetCode`/`resetPassword`:
exactly six characters, all decimal digits. -/
def isSixDigits (code : String) : Bool :=
  code.toList.length == 6 && code.toList.all Char.isDigit

/-- The `findOne({email, resetPasswordCode: hashedCode,
resetPasswordExpires: {$gt: Date.now()}})` filter as a predicate. -/
def resetMatch (now : Nat) (email : String) (h : Digest) (u : User) : Bool :=
  u.email == email && u.resetPasswordCode == some h
    && expiresAfter now u.resetPasswordExpires

/- Response constants used by `passwordController.ts`. -/

def invalidFormatRes : ApiResponse := ⟨400, false, none, some "Invalid code format"⟩
def invalidOrExpiredRes : ApiResponse := ⟨400, false, none, some "Invalid or expired code"⟩
def shortPasswordRes : ApiResponse :=
  ⟨400, false, none, some "Password must be at least 6 characters long"⟩
def verifyOkRes : ApiResponse := ⟨200, true, some "Code verified successfully", none⟩
def resetOkRes : ApiResponse := ⟨200, true, some "Password has been reset successfully", none⟩
def forgotRes : ApiResponse :=
  ⟨200, true, some "If an account exists, a password reset code has been sent", none⟩
def forgotTokenRes : ApiResponse :=
  ⟨200, true, some "If an account exists, a password reset email has been sent", none⟩
def shortNewPasswordRes : ApiResponse :=
  ⟨400, false, none, some "New password must be at least 6 characters long"⟩
def wrongCurrentRes : ApiResponse := ⟨401, false, none, some "Current password is incorrect"⟩
def changeOkRes : ApiResponse := ⟨200, true, some "Password changed successfully", none⟩

/-- `verifyResetCode` (passwordController.ts lines 70-116). The controller
reads the store and replies; it performs no mutation and no save, which the
returned (unchanged) store makes explicit. -/
def verifyResetCode (db : List User) (now : Nat) (email code : String) :
    ApiResponse × List User :=
  if ¬ isSixDigits code then (invalidFormatRes, db)
  else
    match db.find? (resetMatch now email (sha256 code)) with
    | none => (invalidOrExpiredRes, db)
    | some _ => (verifyOkRes, db)

/-- The mutation `resetPassword` applies to the matched document before
saving: new hashed password, reset fields cleared. -/
def clearReset (newPassword : String) (u : User) : User :=
  { u with password := bcryptHash newPassword,
           resetPasswordCode := none,
           resetPasswordExpires := none }

/-- `resetPassword`, 6-digit-code variant (passwordController.ts lines
122-187): newPassword length check, code format check, lookup by
email + digest + live expiry, then update password and clear the reset
fields in one save. -/
def resetPassword (db : List User) (now : Nat) (email code newPassword : String) :
    ApiResponse × List User :=
  if newPassword.length < 6 then (shortPasswordRes, db)
  else if ¬ isSixDigits code then (invalidFormatRes, db)
  else
    match db.find? (resetMatch now email (sha256 code)) with
    | none => (invalidOrExpiredRes, db)
    | some _ =>
        (resetOkRes,
         updateFirst (resetMatch now email (sha256 code)) (clearReset newPassword) db)

/-- `changePassword` (passwordController.ts lines 193-245), acting on the
already-authenticated user attached to the request. -/
def changePassword (u : User) (currentPassword newPassword : String) :
    ApiResponse × User :=
  if newPassword.length < 6 then (shortNewPasswordRes, u)
  else if ¬ compareSecret currentPassword u.password then (wrongCurrentRes, u)
  else (changeOkRes, { u with password := bcryptHash newPassword })

/-- `Math.floor(100000 + r * 900000)` for the random draw `r`. -/
def codeFromRand (r : ℚ) : Nat := (⌊(100000 : ℚ) + r * 900000⌋).toNat

/-- `user.generateResetCode()` (Vehicle.ts lines 236-251): returns the
plaintext 6-digit code, stores its SHA-256 digest and a 15-minute expiry. -/
def generateResetCode (now : Nat) (r : ℚ) (u : User) : String × User :=
  let code := toString (codeFromRand r)
  (code,
   { u with resetPasswordCode := some (sha256 code),
            resetPasswordExpires := some (now + 15 * 60 * 1000) })

/-- `user.generateEmailVerificationCode()` (Vehicle.ts lines 218-233):
same shape with a 30-minute expiry. -/
def generateEmailVerificationCode (now : Nat) (r : ℚ) (u : User) : String × User :=
  let code := toString (codeFromRand r)
  (code,
   { u with emailVerificationCode := some (sha256 code),
            emailVerificationExpires := some (now + 30 * 60 * 1000) })

/-- `user.generateResetToken()` (Vehicle.ts lines 551-566): `tok` is the
hex-encoded `crypto.randomBytes(32)` draw; stores its digest and a
one-hour expiry. -/
def generateResetToken (now : Nat) (tok : String) (u : TokenUser) : String × TokenUser :=
  (tok,
   { u with resetPasswordToken := some (sha256 tok),
            resetPasswordExpires := some (now + 60 * 60 * 1000) })

/-- `forgotPassword`, 6-digit-code variant (passwordController.ts lines
11-64): lookup by email; on hit, generate a code and save; either way reply
with the same constant 200 body. -/
def forgotPassword (db : List User) (now : Nat) (r : ℚ) (email : String) :
    ApiResponse × List User :=
  match db.find? (fun u => u.email == email) with
  | none => (forgotRes, db)
  | some _ =>
      (forgotRes,
       updateFirst (fun u => u.email == email) (fun u => (generateResetCode now r u).2) db)

/-- `forgotPassword`, link-token variant (passwordController.ts lines
255-311). -/
def forgotPasswordToken (db : List TokenUser) (now : Nat) (tok : String) (email : String) :
    ApiResponse × List TokenUser :=
  match db.find? (fun u => u.email == email) with
  | none => (forgotTokenRes, db)
  | some _ =>
      (forgotTokenRes,
       updateFirst (fun u => u.email == email) (fun u => (generateResetToken now tok u).2) db)

/-- Outcome of `login` (authController.ts lines 50-84): either a 200 reply
carrying the user (plus a freshly signed token), or the thrown
`AuthenticationError('Invalid credentials')` mapped to 401. -/
inductive LoginResult
  | success (u : User)
  | invalidCredentials
deriving DecidableEq, Repr

/-- `login`: find by email, compare password; no other condition is
consulted. -/
def login (db : List User) (email password : String) : LoginResult :=
  match db.find? (fun u => u.email == email) with
  | none => .invalidCredentials
  | some u =>
      if compareSecret password u.password then .success u else .invalidCredentials

/-- HTTP status of a login outcome (`AuthenticationError` carries 401). -/
def loginStatus : LoginResult → Nat
  | .success _ => 200
  | .invalidCredentials => 401

/-- Flip a user's `isEmailVerified` flag (used to state that login is
insensitive to the verification flag). -/
def flipVerified (u : User) : User := { u with isEmailVerified := !u.isEmailVerified }

/- ### Session authenticator (middleware/auth.ts) -/

/- Response constants used by `authenticate`. -/

def noTokenRes : ApiResponse := ⟨401, false, none, some "No token provided"⟩
def invalidTokenRes : ApiResponse := ⟨401, false, none, some "Invalid token"⟩
def invalidExpiredRes : ApiResponse := ⟨401, false, none, some "Invalid or expired token"⟩

/-- Outcome of the `authenticate` middleware: the user attached to the
request, or a rejection response. -/
inductive AuthOutcome
  | ok (u : User)
  | reject (r : ApiResponse)
deriving DecidableEq, Repr

/-- JavaScript `String.prototype.split(' ')`: split on every single space,
keeping empty segments. -/
def splitOnSpaceAux (acc : List Char) : List Char → List (List Char)
  | [] => [acc.reverse]
  | c :: rest =>
      if c == ' ' then acc.reverse :: splitOnSpaceAux [] rest
      else splitOnSpaceAux (c :: acc) rest

/-- `authenticate` (auth.ts lines 9-57). `verify` models
`jwt.verify(token, secret)` with the process-wide secret: `some userId` on
a valid signature and expiry, `none` when it throws (malformed token, bad
signature, or expired). `header` is the raw `Authorization` header; the
scheme check is `authHeader.startsWith('Bearer ')` and the token is
`authHeader.split(' ')[1]`. -/
def authenticate (verify : String → Option String) (db : List User)
    (header : Option String) : AuthOutcome :=
  match header with
  | none => .reject noTokenRes
  | some h =>
    if ¬ "Bearer ".toList.isPrefixOf h.toList then .reject noTokenRes
    else
      -- the token is authHeader.split(' ')[1]
      match verify ⟨(splitOnSpaceAux [] h.toList).getD 1 []⟩ with
      | none => .reject invalidExpiredRes
      | some uid =>
        match db.find? (fun u => u.id == uid) with
        | none => .reject invalidTokenRes
        | some u => .ok u

/- ### Boundary error handler (middleware/errorHandler.ts) -/

/-- A JavaScript error value as inspected by `errorHandler`:
`isAppError` covers the four `instanceof` branches (ValidationError,
ConflictError, AuthenticationError, AppError — all read `statusCode` and
`message` identically); `message = ""` models a falsy/absent message;
`statusCode = none` models an absent `statusCode` property. -/
structure JsErr where
  isAppError : Bool
  statusCode : Option Nat
  message : String
  validationErrors : Option (List (String × String))
  name : String
  stack : String
deriving DecidableEq, Repr

/-- The formatted error response: status, `error.message`, optional
`error.errors` list, and the optional top-level `stack`. -/
structure ErrResponse where
  status : Nat
  message : String
  errors : Option (List (String × String))
  stack : Option String
deriving DecidableEq, Repr

/-- The if/else-if cascade of `errorHandler` (errorHandler.ts lines 14-49)
computing `(statusCode, message, errors)`: the four custom-class branches
(collapsed into `isAppError` — they behave identically), then
`err.validationErrors`, then the Mongoose `name` checks, then
`err.message`, defaulting to 500 / 'Internal Server Error'. -/
def errorHandlerCore (err : JsErr) : Nat × String × Option (List (String × String)) :=
  if err.isAppError then (err.statusCode.getD 500, err.message, none)
  else
    match err.validationErrors with
    | some ve =>
        (err.statusCode.getD 400,
         if err.message = "" then "Validation failed" else err.message,
         some ve)
    | none =>
      if err.name = "ValidationError" then (400, err.message, none)
      else if err.name = "CastError" then (400, "Invalid data format", none)
      else if err.message ≠ "" then (500, err.message, none)
      else (500, "Internal Server Error", none)

/-- `errorHandler` (errorHandler.ts lines 8-80): the formatted response,
with the stack echoed only in development mode. -/
def errorHandler (err : JsErr) (isDevelopment : Bool) : ErrResponse :=
  ⟨(errorHandlerCore err).1, (errorHandlerCore err).2.1, (errorHandlerCore err).2.2,
   if isDevelopment then some err.stack else none⟩

/- ### Serialization (the two `toJSON` transforms in Vehicle.ts) -/

/-- A serialized JSON value; compound values (arrays/objects of profile
data) are abstracted as `arr`. -/
inductive JVal
  | str (s : String)
  | boolean (b : Bool)
  | num (n : Nat)
  | arr
deriving DecidableEq, Repr

/-- An optional schema field: serialized only when present on the
document. -/
def optionalField (k : String) (v : Option JVal) : List (String × JVal) :=
  match v with
  | none => []
  | some jv => [(k, jv)]

/-- The minimal-variant `toJSON` transform (Vehicle.ts lines 182-191):
`delete ret.password` only — every other schema field, including the
pending code digests, stays in the output. -/
def toJSONmin (u : User) : List (String × JVal) :=
  [("_id", .str u.id), ("email", .str u.email), ("isEmailVerified", .boolean u.isEmailVerified)]
  ++ optionalField "emailVerificationCode" (u.emailVerificationCode.map (fun d => .str d.hexOf))
  ++ optionalField "emailVerificationExpires" (u.emailVerificationExpires.map .num)
  ++ optionalField "resetPasswordCode" (u.resetPasswordCode.map (fun d => .str d.hexOf))
  ++ optionalField "resetPasswordExpires" (u.resetPasswordExpires.map .num)

/- ### Extended profile variant (Vehicle.ts third section) -/

/-- An emergency contact. -/
structure Contact where
  name : String
  relationship : String
  phone : String
deriving DecidableEq, Repr

/-- User document of the extended profile variant (role, username,
emergency contacts, plus the auth fields). Profile sub-objects not needed
by any claim (contactInfo, notificationPreferences, documents) are
omitted. -/
structure ExtUser where
  id : String
  email : String
  password : Secret
  role : String
  username : Option String
  emergencyContacts : List Contact
  isEmailVerified : Bool
  emailVerificationCode : Option Digest
  emailVerificationExpires : Option Nat
  resetPasswordCode : Option Digest
  resetPasswordExpires : Option Nat
deriving DecidableEq, Repr

/-- The extended-variant `toJSON` transform (Vehicle.ts lines 398-409):
deletes `password`, `emailVerificationCode` and `resetPasswordCode`. -/
def toJSONext (v : ExtUser) : List (String × JVal) :=
  [("_id", .str v.id), ("email", .str v.email), ("role", .str v.role),
   ("emergencyContacts", .arr), ("isEmailVerified", .boolean v.isEmailVerified)]
  ++ optionalField "username" (v.username.map .str)
  ++ optionalField "emailVerificationExpires" (v.emailVerificationExpires.map .num)
  ++ optionalField "resetPasswordExpires" (v.resetPasswordExpires.map .num)

/- ### removeEmergencyContact (authController.ts lines 249-288) -/

def removeOkRes : ApiResponse :=
  ⟨200, true, some "Emergency contact removed successfully", none⟩
def contactNotFoundRes : ApiResponse := ⟨404, false, none, some "Emergency contact not found"⟩

/-- Numeric value of a digit list (most significant first). -/
def digitsToNat (cs : List Char) : Nat :=
  cs.foldl (fun n c => 10 * n + (c.toNat - 48)) 0

/-- JavaScript `parseInt(s)`: skip leading whitespace, optional sign,
longest leading digit run; `none` models `NaN` (no digits). -/
def parseIntJS (s : String) : Option Int :=
  let core : List Char → Option Int := fun l =>
    let ds := l.takeWhile Char.isDigit
    if ds.isEmpty then none else some (Int.ofNat (digitsToNat ds))
  match s.toList.dropWhile (fun c => c == ' ' || c == '\t' || c == '\n' || c == '\r') with
  | '-' :: rest => (core rest).map (fun n => -n)
  | '+' :: rest => core rest
  | cs => core cs

/-- The guard `user.emergencyContacts[parseInt(index)]` is a present
element: a JS array indexed by a negative or out-of-range integer yields
`undefined` (falsy); in-range elements are objects (truthy). -/
def contactExistsAt (contacts : List Contact) (i : Int) : Bool :=
  decide (0 ≤ i) && decide (i.toNat < contacts.length)

/-- `removeEmergencyContact` for the (already found) account: 404 when the
parsed index addresses no element, otherwise `splice(i, 1)` and save. -/
def removeEmergencyContact (u : ExtUser) (index : String) : ApiResponse × ExtUser :=
  match parseIntJS index with
  | none => (contactNotFoundRes, u)
  | some i =>
    if contactExistsAt u.emergencyContacts i then
      (removeOkRes, { u with emergencyContacts := u.emergencyContacts.eraseIdx i.toNat })
    else (contactNotFoundRes, u)

/- ### Sample documents used by concrete counterexamples and witnesses -/

/-- An unverified account with a known password. -/
def uUnverified : User :=
  { id := "u1", email := "a@x.com", password := bcryptHash "secret1",
    isEmailVerified := false, emailVerificationCode := none,
    emailVerificationExpires := none, resetPasswordCode := none,
    resetPasswordExpires := none }

/-- A verified account with a known password and no pending codes. -/
def uPlain : User :=
  { id := "u2", email := "b@x.com", password := bcryptHash "secret1",
    isEmailVerified := true, emailVerificationCode := none,
    emailVerificationExpires := none, resetPasswordCode := none,
    resetPasswordExpires := none }

/-- An account with a live pending reset code for the plaintext "123456"
(digest stored, expiry at t = 1000). -/
def uPending : User :=
  { id := "u3", email := "c@x.com", password := bcryptHash "oldpass",
    isEmailVerified := true, emailVerificationCode := none,
    emailVerificationExpires := none,
    resetPasswordCode := some (sha256 "123456"), resetPasswordExpires := some 1000 }

/- ### Shared helper lemmas -/

/-- `flipVerified` commutes with lookup by email (it changes neither the
email nor any field `find?` inspects). -/
theorem find?_email_map_flip (db : List User) (email : String) :
    (db.map flipVerified).find? (fun u => u.email == email) =
      (db.find? (fun u => u.email == email)).map flipVerified := by
  induction db with
  | nil => rfl
  | cons u rest ih =>
    simp only [List.map_cons, List.find?_cons, flipVerified]
    cases he : (u.email == email) <;> simp [he, ih, flipVerified]

/-- Every key produced by `optionalField k` is `k`. -/
theorem keys_optionalField (k : String) (v : Option JVal) (x : String) :
    x ∈ (optionalField k v).map Prod.fst → x = k := by
  cases v <;> simp [optionalField]

/- ### C3 -/

/-- C3 counterexample: `login` with the correct password of an account
whose email is not verified returns the 200 success outcome with a token,
not a 403 rejection — `isEmailVerified` is never consulted by `login`. -/
theorem c3_counterexample :
    login [uUnverified] "a@x.com" "secret1" = .success uUnverified ∧
    uUnverified.isEmailVerified = false ∧
    loginStatus (login [uUnverified] "a@x.com" "secret1") = 200 := by decide

/-- C3 (amended): `login` has only the outcomes 200 (success with token)
and 401 (invalid credentials) — there is no 403 path — and its status is
unchanged when every account's `isEmailVerified` flag is flipped, so email
verification does not gate login. -/
theorem c3_login_ignores_email_verification (db : List User) (email password : String) :
    (loginStatus (login db email password) = 200 ∨
      loginStatus (login db email password) = 401) ∧
    loginStatus (login (db.map flipVerified) email password) =
      loginStatus (login db email password) := by
  constructor
  · cases h : login db email password <;> simp [loginStatus]
  · rw [login, login, find?_email_map_flip]
    cases h : db.find? (fun u => u.email == email) with
    | none => rfl
    | some u =>
      simp only [Option.map_some]
      by_cases hpw : password = u.password.val <;>
        simp [flipVerified, compareSecret, loginStatus, hpw]

/- ### C4 -/

/-- C4: `forgotPassword` (both the 6-digit-code variant and the link-token
variant) replies with one constant 200 success response for every store
state, time, random draw and email — in particular the response is
identical whether or not an account with the email exists. -/
theorem c4_forgot_password_uniform (db : List User) (tdb : List TokenUser)
    (now : Nat) (r : ℚ) (tok : String) (email email' : String) :
    (forgotPassword db now r email).1 = forgotRes ∧
    (forgotPasswordToken tdb now tok email').1 = forgotTokenRes ∧
    forgotRes.status = 200 ∧ forgotTokenRes.status = 200 := by
  refine ⟨?_, ?_, rfl, rfl⟩
  · cases h : db.find? (fun u => u.email == email) <;> simp [forgotPassword, h]
  · cases h : tdb.find? (fun u => u.email == email') <;> simp [forgotPasswordToken, h]

/- ### C5 -/

/-- C5 counterexample: the minimal-variant `toJSON` transform deletes only
`password` — for an account with a live pending reset code, the serialized
representation (the one `register`/`login`/profile reads return) still
contains the stored `resetPasswordCode` digest. -/
theorem c5_counterexample :
    ("resetPasswordCode", JVal.str (sha256 "123456").hexOf) ∈ toJSONmin uPending := by
  decide

/-- C5 (amended): both `toJSON` transforms strip `password` from every
serialized account, and the extended variant also strips the pending
`emailVerificationCode` and `resetPasswordCode` digests; the minimal
variant leaves the pending digests in the output (see the
counterexample). -/
theorem c5_serialization_strips (u : User) (v : ExtUser) :
    "password" ∉ (toJSONmin u).map Prod.fst ∧
    "password" ∉ (toJSONext v).map Prod.fst ∧
    "emailVerificationCode" ∉ (toJSONext v).map Prod.fst ∧
    "resetPasswordCode" ∉ (toJSONext v).map Prod.fst := by
  refine ⟨?_, ?_, ?_, ?_⟩
  · cases h1 : u.emailVerificationCode <;> cases h2 : u.emailVerificationExpires <;>
      cases h3 : u.resetPasswordCode <;> cases h4 : u.resetPasswordExpires <;>
      simp [toJSONmin, optionalField, h1, h2, h3, h4]
  all_goals
    cases h1 : v.username <;> cases h2 : v.emailVerificationExpires <;>
      cases h3 : v.resetPasswordExpires <;>
      simp [toJSONext, optionalField, h1, h2, h3]

/- ### C7 -/

/-- C7 counterexample: with a non-matching `currentPassword` but a
`newPassword` shorter than 6 characters, `changePassword` fails with the
400 length rejection, not the 401 authentication rejection — the length
check runs before the current-password check. -/
theorem c7_counterexample :
    compareSecret "wrong" uPlain.password = false ∧
    (changePassword uPlain "wrong" "abc").1.status = 400 ∧
    ¬ (changePassword uPlain "wrong" "abc").1.status = 401 := by decide

/-- C7 (amended): provided the new password passes the length-≥-6
validation, a `currentPassword` that does not match the stored secret makes
`changePassword` fail with the 401 authentication rejection and leave the
account — in particular the stored secret — unchanged (no save occurs). -/
theorem c7_change_password_wrong_current (u : User) (currentPassword newPassword : String)
    (hlen : 6 ≤ newPassword.length)
    (hmatch : compareSecret currentPassword u.password = false) :
    changePassword u currentPassword newPassword = (wrongCurrentRes, u) := by
  unfold changePassword
  rw [if_neg (by omega)]
  simp [hmatch]

/-- Witness for the amended C7 at a concrete account and inputs. -/
theorem c7_change_password_wrong_current_witness :
    6 ≤ ("abcdef" : String).length ∧
    compareSecret "wrong" uPlain.password = false ∧
    changePassword uPlain "wrong" "abcdef" = (wrongCurrentRes, uPlain) :=
  ⟨by decide, by decide,
   c7_change_password_wrong_current uPlain "wrong" "abcdef" (by decide) (by decide)⟩

/- ### Helper lemmas about the reset-code lookup -/

/-- A document matching the reset filter carries the claimed email. -/
theorem resetMatch_email_eq {now : Nat} {email : String} {hd : Digest} {u : User}
    (hm : resetMatch now email hd u = true) : u.email = email := by
  simp only [resetMatch, Bool.and_eq_true, beq_iff_eq] at hm
  exact hm.1.1

/-- After `clearReset`, a document no longer matches any reset filter. -/
theorem resetMatch_clearReset (now : Nat) (email : String) (hd : Digest)
    (pw : String) (u : User) :
    resetMatch now email hd (clearReset pw u) = false := by
  simp [resetMatch, clearReset]

/-- The reset filter as the conjunction the spec states: claimed email,
digest equality, and an expiry strictly in the future. -/
theorem resetMatch_iff (now : Nat) (email : String) (hd : Digest) (u : User) :
    resetMatch now email hd u = true ↔
      u.email = email ∧ u.resetPasswordCode = some hd ∧
        ∃ e, u.resetPasswordExpires = some e ∧ now < e := by
  simp only [resetMatch, Bool.and_eq_true, beq_iff_eq]
  constructor
  · rintro ⟨⟨h1, h2⟩, h3⟩
    refine ⟨h1, h2, ?_⟩
    cases he : u.resetPasswordExpires with
    | none => rw [he] at h3; simp [expiresAfter] at h3
    | some e => rw [he] at h3; exact ⟨e, rfl, by simpa [expiresAfter] using h3⟩
  · rintro ⟨h1, h2, e, he, hlt⟩
    exact ⟨⟨h1, h2⟩, by simp [expiresAfter, he, hlt]⟩

/-- Core single-use lemma: when emails are unique in the store and the
reset filter has a hit, clearing the (first) hit via `updateFirst` leaves a
store in which the same filter has no hit at all. -/
theorem find?_updateFirst_clearReset (now : Nat) (email : String) (hd : Digest) (pw : String) :
    ∀ db : List User, (db.map User.email).Nodup →
      (db.find? (resetMatch now email hd)).isSome →
      (updateFirst (resetMatch now email hd) (clearReset pw) db).find?
        (resetMatch now email hd) = none
  | [], _, hs => by simp at hs
  | u :: rest, hnd, hs => by
    rw [List.map_cons, List.nodup_cons] at hnd
    cases hp : resetMatch now email hd u with
    | true =>
      simp only [updateFirst, hp, if_pos]
      rw [List.find?_cons_of_neg _ (by simp [resetMatch_clearReset]),
        List.find?_eq_none]
      intro v hv hpv
      have hue : u.email = email := resetMatch_email_eq hp
      have hve : v.email = email := resetMatch_email_eq hpv
      apply hnd.1
      rw [hue, ← hve]
      exact List.mem_map_of_mem User.email hv
    | false =>
      simp only [updateFirst, hp, Bool.false_eq_true, if_false]
      rw [List.find?_cons_of_neg _ (by simp [hp])]
      rw [List.find?_cons_of_neg _ (by simp [hp])] at hs
      exact find?_updateFirst_clearReset now email hd pw rest hnd.2 hs

/- ### C1 -/

/-- C1 counterexample: a successful `verifyResetCode` does not clear
anything — it leaves the store unchanged, and the identical follow-up
request succeeds again instead of being rejected. -/
theorem c1_counterexample :
    (verifyResetCode [uPending] 0 "c@x.com" "123456").1.status = 200 ∧
    (verifyResetCode [uPending] 0 "c@x.com" "123456").2 = [uPending] ∧
    (verifyResetCode ((verifyResetCode [uPending] 0 "c@x.com" "123456").2)
        0 "c@x.com" "123456").1.status = 200 := by decide

/-- C1 (amended): the consuming step is `resetPassword`: when it succeeds
(over a store with unique emails) it clears the stored digest and expiry,
so presenting the identical code afterwards is rejected by both
`verifyResetCode` and `resetPassword`; `verifyResetCode` itself never
mutates the store, so a code it accepts stays live until `resetPassword`
consumes it or it expires. -/
theorem c1_reset_password_single_use (db : List User) (now : Nat)
    (email code pw : String)
    (hnd : (db.map User.email).Nodup)
    (hsucc : (resetPassword db now email code pw).1.status = 200) :
    (verifyResetCode (resetPassword db now email code pw).2 now email code).1 =
      invalidOrExpiredRes ∧
    (resetPassword (resetPassword db now email code pw).2 now email code pw).1 =
      invalidOrExpiredRes ∧
    (verifyResetCode db now email code).2 = db := by
  by_cases hlen : pw.length < 6
  · simp [resetPassword, hlen, shortPasswordRes] at hsucc
  by_cases hfmt : isSixDigits code = true
  case neg => simp [resetPassword, hlen, hfmt, invalidFormatRes] at hsucc
  cases hfind : db.find? (resetMatch now email (sha256 code)) with
  | none => simp [resetPassword, hlen, hfmt, hfind, invalidOrExpiredRes] at hsucc
  | some u =>
    have hsnd : (resetPassword db now email code pw).2 =
        updateFirst (resetMatch now email (sha256 code)) (clearReset pw) db := by
      simp [resetPassword, hlen, hfmt, hfind]
    have hnone : (updateFirst (resetMatch now email (sha256 code)) (clearReset pw) db).find?
        (resetMatch now email (sha256 code)) = none :=
      find?_updateFirst_clearReset now email (sha256 code) pw db hnd (by rw [hfind]; rfl)
    refine ⟨?_, ?_, ?_⟩
    · rw [hsnd]; simp [verifyResetCode, hfmt, hnone]
    · rw [hsnd]; simp [resetPassword, hlen, hfmt, hnone]
    · simp [verifyResetCode, hfmt]
      cases h : db.find? (resetMatch now email (sha256 code)) <;> simp [h]

/-- Witness for the amended C1 at a concrete store: one pending account,
the matching code, a fresh password. -/
theorem c1_reset_password_single_use_witness :
    (([uPending].map User.email).Nodup ∧
      (resetPassword [uPending] 0 "c@x.com" "123456" "newpass1").1.status = 200) ∧
    ((verifyResetCode (resetPassword [uPending] 0 "c@x.com" "123456" "newpass1").2
        0 "c@x.com" "123456").1 = invalidOrExpiredRes ∧
     (resetPassword (resetPassword [uPending] 0 "c@x.com" "123456" "newpass1").2
        0 "c@x.com" "123456" "newpass1").1 = invalidOrExpiredRes ∧
     (verifyResetCode [uPending] 0 "c@x.com" "123456").2 = [uPending]) :=
  ⟨⟨by decide, by decide⟩,
   c1_reset_password_single_use [uPending] 0 "c@x.com" "123456" "newpass1"
     (by decide) (by decide)⟩

/- ### C2 -/

/-- C2 counterexample: two requests that both fail the
account/digest/expiry conditions (no account exists at all) get different
400 bodies — a malformed code is rejected with 'Invalid code format', a
well-formed wrong code with 'Invalid or expired code' — so not every
failing combination gets the same opaque rejection. -/
theorem c2_counterexample :
    (verifyResetCode [] 0 "a@x.com" "abc").1 = invalidFormatRes ∧
    (verifyResetCode [] 0 "a@x.com" "000000").1 = invalidOrExpiredRes ∧
    invalidFormatRes ≠ invalidOrExpiredRes := by decide

/-- C2 (amended): for a presented code that passes the 6-digit format
check (and, for reset-password, a new password of length ≥ 6), both
verifiers accept exactly when an account document matches the claimed
email with the stored digest equal to the presented code's SHA-256 digest
and an expiry strictly in the future; every failing combination of those
conditions yields the one opaque 400 'Invalid or expired code' response,
identical across wrong code, expired code and unknown email. -/
theorem c2_reset_verifier_spec (db : List User) (now : Nat) (email code pw : String)
    (hfmt : isSixDigits code = true) (hpw : 6 ≤ pw.length) :
    ((verifyResetCode db now email code).1.status = 200 ↔
      ∃ u ∈ db, u.email = email ∧ u.resetPasswordCode = some (sha256 code) ∧
        ∃ e, u.resetPasswordExpires = some e ∧ now < e) ∧
    ((resetPassword db now email code pw).1.status = 200 ↔
      ∃ u ∈ db, u.email = email ∧ u.resetPasswordCode = some (sha256 code) ∧
        ∃ e, u.resetPasswordExpires = some e ∧ now < e) ∧
    ((verifyResetCode db now email code).1.status ≠ 200 →
      (verifyResetCode db now email code).1 = invalidOrExpiredRes) ∧
    ((resetPassword db now email code pw).1.status ≠ 200 →
      (resetPassword db now email code pw).1 = invalidOrExpiredRes) := by
  have hlen : ¬ pw.length < 6 := by omega
  have hex : (db.find? (resetMatch now email (sha256 code))).isSome = true ↔
      ∃ u ∈ db, u.email = email ∧ u.resetPasswordCode = some (sha256 code) ∧
        ∃ e, u.resetPasswordExpires = some e ∧ now < e := by
    rw [List.find?_isSome]
    exact exists_congr fun u =>
      and_congr_right fun _ => resetMatch_iff now email (sha256 code) u
  have hv : (verifyResetCode db now email code).1 =
      (if (db.find? (resetMatch now email (sha256 code))).isSome
        then verifyOkRes else invalidOrExpiredRes) := by
    rw [verifyResetCode, if_neg (by simp [hfmt])]
    cases hfind : db.find? (resetMatch now email (sha256 code)) <;> simp [hfind]
  have hr : (resetPassword db now email code pw).1 =
      (if (db.find? (resetMatch now email (sha256 code))).isSome
        then resetOkRes else invalidOrExpiredRes) := by
    rw [resetPassword, if_neg hlen, if_neg (by simp [hfmt])]
    cases hfind : db.find? (resetMatch now email (sha256 code)) <;> simp [hfind]
  rw [hv, hr]
  cases hs : (db.find? (resetMatch now email (sha256 code))).isSome with
  | true =>
    have hmem := hex.mp hs
    simp [hs, verifyOkRes, resetOkRes, hmem]
  | false =>
    have hnmem : ¬ ∃ u ∈ db, u.email = email ∧ u.resetPasswordCode = some (sha256 code) ∧
        ∃ e, u.resetPasswordExpires = some e ∧ now < e := by
      intro hcontra
      rw [hex.mpr hcontra] at hs
      exact Bool.true_eq_false.mp hs
    simp [hs, invalidOrExpiredRes, hnmem]

/-- Witness for the amended C2 at a concrete store with one matching
pending account. -/
theorem c2_reset_verifier_spec_witness :
    isSixDigits "123456" = true ∧ 6 ≤ ("newpas" : String).length ∧
    ((verifyResetCode [uPending] 0 "c@x.com" "123456").1.status = 200 ↔
      ∃ u ∈ [uPending], u.email = "c@x.com" ∧
        u.resetPasswordCode = some (sha256 "123456") ∧
        ∃ e, u.resetPasswordExpires = some e ∧ 0 < e) :=
  ⟨by decide, by decide,
   (c2_reset_verifier_spec [uPending] 0 "c@x.com" "123456" "newpas"
     (by decide) (by decide)).1⟩

/- ### C6 -/

/-- A token-variant account with a known password and no pending token. -/
def tuPlain : TokenUser :=
  { id := "t1", email := "e@x.com", password := bcryptHash "secret1",
    resetPasswordToken := none, resetPasswordExpires := none }

/-- C6: each issuer returns the plaintext value, stores exactly the
SHA-256 digest of that returned value together with the purpose's absolute
expiry — now + 15 minutes for the password-reset code, now + 30 minutes
for the email-verification code, now + 60 minutes for the link token — and
for every draw `0 ≤ r < 1` the numeric code lies in [100000, 999999]. -/
theorem c6_issuers_spec (u : User) (tu : TokenUser) (now : Nat) (r : ℚ) (tok : String)
    (h0 : 0 ≤ r) (h1 : r < 1) :
    ((generateResetCode now r u).1 = toString (codeFromRand r) ∧
      (generateResetCode now r u).2.resetPasswordCode =
        some (sha256 (generateResetCode now r u).1) ∧
      (generateResetCode now r u).2.resetPasswordExpires = some (now + 15 * 60 * 1000) ∧
      (generateResetCode now r u).2.email = u.email ∧
      (generateResetCode now r u).2.password = u.password) ∧
    ((generateEmailVerificationCode now r u).1 = toString (codeFromRand r) ∧
      (generateEmailVerificationCode now r u).2.emailVerificationCode =
        some (sha256 (generateEmailVerificationCode now r u).1) ∧
      (generateEmailVerificationCode now r u).2.emailVerificationExpires =
        some (now + 30 * 60 * 1000)) ∧
    ((generateResetToken now tok tu).1 = tok ∧
      (generateResetToken now tok tu).2.resetPasswordToken = some (sha256 tok) ∧
      (generateResetToken now tok tu).2.resetPasswordExpires = some (now + 60 * 60 * 1000)) ∧
    (100000 ≤ codeFromRand r ∧ codeFromRand r ≤ 999999) := by
  refine ⟨⟨rfl, rfl, rfl, rfl, rfl⟩, ⟨rfl, rfl, rfl⟩, ⟨rfl, rfl, rfl⟩, ?_, ?_⟩
  · have hfl : (100000 : ℤ) ≤ ⌊(100000 : ℚ) + r * 900000⌋ := by
      apply Int.le_floor.mpr
      push_cast
      nlinarith
    unfold codeFromRand
    omega
  · have hfl : ⌊(100000 : ℚ) + r * 900000⌋ < 1000000 := by
      apply Int.floor_lt.mpr
      push_cast
      nlinarith
    unfold codeFromRand
    omega

/-- Witness for C6 at the draw r = 0 (code 100000). -/
theorem c6_issuers_spec_witness :
    (0 : ℚ) ≤ 0 ∧ (0 : ℚ) < 1 ∧
    (100000 ≤ codeFromRand 0 ∧ codeFromRand 0 ≤ 999999) :=
  ⟨le_refl 0, zero_lt_one,
   (c6_issuers_spec uPlain tuPlain 0 0 "tok" (le_refl 0) zero_lt_one).2.2.2⟩

/- ### C8 -/

/-- C8 counterexample: three rejected authentication attempts — missing
header, failed token verification (bad signature or expired), and a valid
token whose account no longer exists — all get status 401 but three
pairwise different bodies, so the failure causes are distinguished. -/
theorem c8_counterexample :
    authenticate (fun _ => none) [] none = .reject noTokenRes ∧
    authenticate (fun _ => none) [] (some "Bearer tok") = .reject invalidExpiredRes ∧
    authenticate (fun _ => some "u9") [] (some "Bearer tok") = .reject invalidTokenRes ∧
    noTokenRes ≠ invalidExpiredRes ∧ noTokenRes ≠ invalidTokenRes ∧
      invalidExpiredRes ≠ invalidTokenRes := by decide

/-- C8 (amended): every rejection by `authenticate` is a 401 with
`success:false` — uniform in status — but the body is one of three
distinct messages: 'No token provided' for a missing or malformed header,
'Invalid or expired token' when token verification throws (bad signature
and expiry are not distinguished from each other), and 'Invalid token'
when the embedded account no longer exists. -/
theorem c8_authenticate_reject_classes (verify : String → Option String)
    (db : List User) (header : Option String) :
    (∃ u, authenticate verify db header = .ok u) ∨
    (∃ r, authenticate verify db header = .reject r ∧ r.status = 401 ∧
      r.success = false ∧
      (r = noTokenRes ∨ r = invalidTokenRes ∨ r = invalidExpiredRes)) := by
  cases header with
  | none => exact .inr ⟨noTokenRes, rfl, rfl, rfl, .inl rfl⟩
  | some h =>
    by_cases hb : "Bearer ".toList <+: h.toList
    case neg =>
      have ha : authenticate verify db (some h) = .reject noTokenRes := by
        simp only [authenticate]
        rw [if_pos (by simpa using hb)]
      rw [ha]
      exact .inr ⟨noTokenRes, rfl, rfl, rfl, .inl rfl⟩
    case pos =>
      cases hv : verify ⟨(splitOnSpaceAux [] h.toList).getD 1 []⟩ with
      | none =>
        have ha : authenticate verify db (some h) = .reject invalidExpiredRes := by
          simp only [authenticate, hv]
          rw [if_neg (by simpa using hb)]
        rw [ha]
        exact .inr ⟨invalidExpiredRes, rfl, rfl, rfl, .inr (.inr rfl)⟩
      | some uid =>
        cases hf : db.find? (fun u => u.id == uid) with
        | none =>
          have ha : authenticate verify db (some h) = .reject invalidTokenRes := by
            simp only [authenticate, hv, hf]
            rw [if_neg (by simpa using hb)]
          rw [ha]
          exact .inr ⟨invalidTokenRes, rfl, rfl, rfl, .inr (.inl rfl)⟩
        | some u =>
          have ha : authenticate verify db (some h) = .ok u := by
            simp only [authenticate, hv, hf]
            rw [if_neg (by simpa using hb)]
          rw [ha]
          exact .inl ⟨u, rfl⟩

/- ### C9 -/

/-- An unrecognized error value carrying its own message. -/
def unknownBoom : JsErr :=
  { isAppError := false, statusCode := none, message := "boom",
    validationErrors := none, name := "Error", stack := "trace" }

/-- C9 counterexample: an unrecognized error with a non-empty message is
mapped to status 500, but its own message is echoed into the response body
instead of a generic one. -/
theorem c9_counterexample :
    errorHandler unknownBoom false = ⟨500, "boom", none, none⟩ ∧
    (errorHandler unknownBoom false).message = unknownBoom.message ∧
    (errorHandler unknownBoom false).message ≠ "Internal Server Error" := by decide

/-- C9 (amended): an error that is none of the recognized kinds (not an
AppError, no validator error list, not a Mongoose ValidationError or
CastError by name) is mapped to status 500 with no field-error list; the
message is the error's own message when non-empty and the generic
'Internal Server Error' only when the error has none; the stack appears in
the response exactly when run mode is development. -/
theorem c9_error_handler_unknown (err : JsErr) (dev : Bool)
    (hA : err.isAppError = false) (hV : err.validationErrors = none)
    (hn1 : err.name ≠ "ValidationError") (hn2 : err.name ≠ "CastError") :
    (errorHandler err dev).status = 500 ∧
    (errorHandler err dev).message =
      (if err.message = "" then "Internal Server Error" else err.message) ∧
    (errorHandler err dev).errors = none ∧
    (errorHandler err dev).stack = (if dev then some err.stack else none) := by
  have hcore : errorHandlerCore err =
      (500, (if err.message = "" then "Internal Server Error" else err.message), none) := by
    rw [errorHandlerCore, hA]
    simp only [Bool.false_eq_true, if_false]
    rw [hV]
    rw [if_neg hn1, if_neg hn2]
    by_cases hm : err.message = ""
    · simp [hm]
    · simp [hm]
  unfold errorHandler
  rw [hcore]
  exact ⟨rfl, rfl, rfl, rfl⟩

/-- Witness for the amended C9 at the concrete unknown error. -/
theorem c9_error_handler_unknown_witness :
    (unknownBoom.isAppError = false ∧ unknownBoom.validationErrors = none ∧
      unknownBoom.name ≠ "ValidationError" ∧ unknownBoom.name ≠ "CastError") ∧
    ((errorHandler unknownBoom true).status = 500 ∧
      (errorHandler unknownBoom true).message =
        (if unknownBoom.message = "" then "Internal Server Error" else unknownBoom.message) ∧
      (errorHandler unknownBoom true).errors = none ∧
      (errorHandler unknownBoom true).stack =
        (if (true : Bool) then some unknownBoom.stack else none)) :=
  ⟨⟨by decide, by decide, by decide, by decide⟩,
   c9_error_handler_unknown unknownBoom true (by decide) (by decide)
     (by decide) (by decide)⟩

/- ### C10 -/

/-- Sample contacts and account for the C10 witness. -/
def cAlice : Contact := ⟨"Alice", "sister", "111"⟩
def cBob : Contact := ⟨"Bob", "friend", "222"⟩

def vSample : ExtUser :=
  { id := "v1", email := "d@x.com", password := bcryptHash "pw1234", role := "user",
    username := some "dan", emergencyContacts := [cAlice, cBob],
    isEmailVerified := true, emailVerificationCode := none,
    emailVerificationExpires := none, resetPasswordCode := none,
    resetPasswordExpires := none }

/-- C10: when the parsed index addresses no existing element of the
emergency-contacts list (unparseable, negative, or out of range), the
operation returns the 404 response and the account is unchanged; when it
does, exactly that element is removed — the result is the prefix before it
followed by the suffix after it, preserving the order of the rest — and
every other account field is unchanged. -/
theorem c10_remove_emergency_contact_spec (u : ExtUser) (idx : String) :
    (parseIntJS idx = none → removeEmergencyContact u idx = (contactNotFoundRes, u)) ∧
    (∀ i, parseIntJS idx = some i → contactExistsAt u.emergencyContacts i = false →
      removeEmergencyContact u idx = (contactNotFoundRes, u)) ∧
    (∀ i, parseIntJS idx = some i → contactExistsAt u.emergencyContacts i = true →
      removeEmergencyContact u idx =
        (removeOkRes,
         { u with emergencyContacts :=
             u.emergencyContacts.take i.toNat ++ u.emergencyContacts.drop (i.toNat + 1) })) := by
  refine ⟨?_, ?_, ?_⟩
  · intro hp
    simp [removeEmergencyContact, hp]
  · intro i hp hg
    simp [removeEmergencyContact, hp, hg]
  · intro i hp hg
    simp [removeEmergencyContact, hp, hg, List.eraseIdx_eq_take_drop_succ]

/-- Witness for C10: removing index "1" from a two-contact account keeps
only the first contact; index "9" is out of range and leaves the account
unchanged. -/
theorem c10_remove_emergency_contact_spec_witness :
    (parseIntJS "1" = some 1 ∧ contactExistsAt vSample.emergencyContacts 1 = true ∧
      removeEmergencyContact vSample "1" =
        (removeOkRes,
         { vSample with emergencyContacts :=
             vSample.emergencyContacts.take (1 : Int).toNat
               ++ vSample.emergencyContacts.drop ((1 : Int).toNat + 1) })) ∧
    (parseIntJS "9" = some 9 ∧ contactExistsAt vSample.emergencyContacts 9 = false ∧
      removeEmergencyContact vSample "9" = (contactNotFoundRes, vSample)) :=
  ⟨⟨by decide, by decide,
    (c10_remove_emergency_contact_spec vSample "1").2.2 1 (by decide) (by decide)⟩,
   ⟨by decide, by decide,
    (c10_remove_emergency_contact_spec vSample "9").2.1 9 (by decide) (by decide)⟩⟩
